import Mathlib

/-!
# Verification of the institutional-engine signal pipeline

Shallow embedding of the repository's core modules:

* `calculations.py` — z-score normalizer, fixed-weight blenders, EMA smoother;
* `classification.py` — threshold classifiers for bias and phase;
* `db.py` — the upsert / fetch-last-n store, modelled as date-sorted lists;
* `main.py` — the live daily pipeline `run`;
* `backfill.py` — the per-row backfill step and its fold.

Raw market values are modelled as rationals (every float the program
handles is a rational); derived z-scores are real numbers because the
population standard deviation involves a square root.  Trade dates are
natural numbers; each table is kept sorted newest-first, which is exactly
the order `fetch_last_n` returns.
-/

namespace InstEngine

/-! ## calculations.py -/

/-- `np.mean(historical_values)`: arithmetic mean of a list of rationals
(0 on the empty list, matching field convention; the pipeline never calls
it on an empty history). -/
def mean (l : List ℚ) : ℚ := l.sum / (l.length : ℚ)

/-- Population variance, the square of `np.std(historical_values)`
(numpy's default `ddof=0`). -/
def pvariance (l : List ℚ) : ℚ :=
  (l.map (fun x => (x - mean l) ^ 2)).sum / (l.length : ℚ)

/-- `np.std(historical_values)`: population standard deviation. -/
noncomputable def np_std (l : List ℚ) : ℝ := Real.sqrt ((pvariance l : ℚ) : ℝ)

/-- `calculate_z_score(today_value, historical_values)` from
`calculations.py`: if the standard deviation is 0 return 0, otherwise
`(today_value - mean) / std` clamped to `[-3, 3]` via `max(min(z, 3), -3)`. -/
noncomputable def calculate_z_score (today_value : ℚ) (historical_values : List ℚ) : ℝ :=
  let m : ℝ := ((mean historical_values : ℚ) : ℝ)
  let std : ℝ := np_std historical_values
  if std = 0 then 0
  else
    let z : ℝ := ((today_value : ℚ) : ℝ) - m
    max (min (z / std) 3) (-3)

/-- `calculate_futures_z(position_z, oi_z)`:
`(position_z * 0.6) + (oi_z * 0.4)`, no clamp. -/
noncomputable def calculate_futures_z (position_z oi_z : ℝ) : ℝ :=
  (position_z * 0.6) + (oi_z * 0.4)

/-- `calculate_sts(futures_z, cash_z, pcr_z)`:
`(futures_z * 0.50) + (cash_z * 0.30) + (pcr_z * 0.20)` clamped to `[-3, 3]`. -/
noncomputable def calculate_sts (futures_z cash_z pcr_z : ℝ) : ℝ :=
  let sts := (futures_z * 0.50) + (cash_z * 0.30) + (pcr_z * 0.20)
  max (min sts 3) (-3)

/-- `calculate_ema(current_value, previous_ema, period=10)`:
`alpha = 2 / (period + 1)`, result `current * alpha + previous * (1 - alpha)`. -/
noncomputable def calculate_ema (current_value previous_ema : ℝ) (period : ℝ := 10) : ℝ :=
  let alpha := 2 / (period + 1)
  (current_value * alpha) + (previous_ema * (1 - alpha))

/-! ## classification.py -/

/-- `classify_bias(sts)` from `classification.py`. -/
noncomputable def classify_bias (sts : ℝ) : String :=
  if sts > 2 then "Strong Bullish"
  else if sts > 1 then "Bullish"
  else if sts < -2 then "Strong Bearish"
  else if sts < -1 then "Bearish"
  else "Neutral"

/-- `classify_phase(irs)` from `classification.py`. -/
noncomputable def classify_phase (irs : ℝ) : String :=
  if irs > 1.5 then "Accumulation"
  else if irs > 0.5 then "Bullish Bias"
  else if irs < -1.5 then "Distribution"
  else if irs < -0.5 then "Bearish Bias"
  else "Transition"

/-! ## db.py — the store

Each table is a list of `(trade_date, row)` pairs kept sorted by date,
newest first: `upsert` is keyed by `trade_date` (last write wins) and
`fetch_last_n` returns the `n` newest values of one column, exactly the
`order("trade_date", desc=True).limit(n)` query in `db.py`. -/

/-- Insert a `(date, row)` pair into a newest-first list, keeping it
sorted by date descending. -/
def insertDesc {α : Type} (d : ℕ) (v : α) : List (ℕ × α) → List (ℕ × α)
  | [] => [(d, v)]
  | (d0, v0) :: rest =>
      if d0 ≤ d then (d, v) :: (d0, v0) :: rest
      else (d0, v0) :: insertDesc d v rest

/-- `upsert(table, data)` from `db.py`: replace any row with the same
trade date, otherwise insert, keeping the newest-first order. -/
def upsertT {α : Type} (rows : List (ℕ × α)) (d : ℕ) (v : α) : List (ℕ × α) :=
  insertDesc d v (rows.filter (fun p => decide (p.1 ≠ d)))

/-- `fetch_last_n(table, column, n)` from `db.py`: the `n` newest values
of one column, newest first, empty when the table is empty. -/
def fetch_last_n {α β : Type} (rows : List (ℕ × α)) (column : α → β) (n : ℕ) : List β :=
  (rows.take n).map (fun p => column p.2)

/-! ## Python `round`

`round(x, ndigits)` on floats rounds half to even; the pipeline uses it at
2 digits for the duplicate check and 3 digits when persisting. -/

/-- Round a rational to the nearest integer, ties to even. -/
def roundHalfEvenQ (q : ℚ) : ℤ :=
  let f : ℤ := ⌊q⌋
  if q - (f : ℚ) < 1 / 2 then f
  else if 1 / 2 < q - (f : ℚ) then f + 1
  else if Even f then f else f + 1

/-- Python `round(q, n)` on a rational. -/
def pyRound (q : ℚ) (n : ℕ) : ℚ := (roundHalfEvenQ (q * 10 ^ n) : ℚ) / 10 ^ n

/-- Round a real to the nearest integer, ties to even. -/
noncomputable def roundHalfEvenR (x : ℝ) : ℤ :=
  let f : ℤ := ⌊x⌋
  if x - (f : ℝ) < 1 / 2 then f
  else if 1 / 2 < x - (f : ℝ) then f + 1
  else if Even f then f else f + 1

/-- Python `round(x, n)` on a real. -/
noncomputable def pyRoundR (x : ℝ) (n : ℕ) : ℝ := (roundHalfEvenR (x * 10 ^ n) : ℝ) / 10 ^ n

/-! ## Table row shapes -/

/-- A `fii_cash_raw` row (besides its `trade_date` key). -/
structure CashRow where
  fii_buy : ℚ
  fii_sell : ℚ
  fii_net : ℚ
  deriving DecidableEq

/-- A `dii_cash_raw` row. -/
structure DiiRow where
  dii_buy : ℚ
  dii_sell : ℚ
  dii_net : ℚ
  deriving DecidableEq

/-- An `index_futures_raw` row. -/
structure FutRow where
  net_position : ℚ
  oi : ℚ
  oi_change : ℚ
  deriving DecidableEq

/-- An `options_summary_raw` row. -/
structure OptRow where
  total_call_oi : ℚ
  total_put_oi : ℚ
  pcr : ℚ
  deriving DecidableEq

/-- An `institutional_zscores` row (derived, hence real-valued). -/
structure ZRow where
  cash_z : ℝ
  futures_z : ℝ
  pcr_z : ℝ
  sts : ℝ

/-- An `institutional_regime` row; the live path writes no
`tomorrow_bias`, the backfill path does. -/
structure RegimeRow where
  sts : ℝ
  irs : ℝ
  market_phase : String
  tomorrow_bias : Option String

/-- The whole store. -/
structure DB where
  fii_cash_raw : List (ℕ × CashRow)
  dii_cash_raw : List (ℕ × DiiRow)
  index_futures_raw : List (ℕ × FutRow)
  options_summary_raw : List (ℕ × OptRow)
  institutional_zscores : List (ℕ × ZRow)
  institutional_regime : List (ℕ × RegimeRow)

/-! ## main.py — the live pipeline -/

/-- Result of `fetch_institutional_cash` (mandatory fetch). -/
structure CashFetch where
  fii_buy : ℚ
  fii_sell : ℚ
  fii_net : ℚ
  dii_buy : ℚ
  dii_sell : ℚ
  dii_net : ℚ
  deriving DecidableEq

/-- Result of `fetch_fii_futures` (optional fetch). -/
structure FutFetch where
  net_position : ℚ
  total_oi : ℚ
  deriving DecidableEq

/-- Result of `fetch_index_pcr` (optional fetch). -/
structure PcrFetch where
  total_call_oi : ℚ
  total_put_oi : ℚ
  pcr : ℚ
  deriving DecidableEq

/-- How a live invocation of `run` ended. -/
inductive RunStatus : Type
  /-- The mandatory cash fetch raised; the exception propagates. -/
  | fatal
  /-- Duplicate data detected; `run` returned at the duplicate guard. -/
  | dupSkip
  /-- Fewer than 20 trailing values for some signal; `run` returned
  after persisting raw data only. -/
  | insufficientHistory
  /-- Full pipeline ran: raw and derived rows persisted, message sent. -/
  | completed
  deriving DecidableEq

/-- Outcome of one live invocation: the resulting store, how the run
ended, and whether the Telegram message was sent. -/
structure RunResult where
  db : DB
  status : RunStatus
  notified : Bool

/-- The duplicate guard of `main.py` (lines 50–56): compare the most
recently persisted `fii_net` with today's fetched one, rounded to 2
decimal places; an empty table never matches. -/
def dupCheck (db : DB) (fii_net : ℚ) : Bool :=
  match fetch_last_n db.fii_cash_raw (fun r => r.fii_net) 1 with
  | last_stored :: _ => decide (pyRound last_stored 2 = pyRound fii_net 2)
  | [] => false

/-- Step 2 of `run` (`STORE RAW DATA`): upsert today's four raw rows.
Note `oi_change` is stored as `total_oi` (main.py line 99). -/
def db1Live (today : ℕ) (c : CashFetch) (f : FutFetch) (p : PcrFetch) (db : DB) : DB :=
  { db with
    fii_cash_raw := upsertT db.fii_cash_raw today ⟨c.fii_buy, c.fii_sell, c.fii_net⟩
    dii_cash_raw := upsertT db.dii_cash_raw today ⟨c.dii_buy, c.dii_sell, c.dii_net⟩
    index_futures_raw := upsertT db.index_futures_raw today ⟨f.net_position, f.total_oi, f.total_oi⟩
    options_summary_raw := upsertT db.options_summary_raw today ⟨p.total_call_oi, p.total_put_oi, p.pcr⟩ }

/-- The four trailing windows fetched in step 3 of `run` (and in the
backfill loop): 30 newest values per signal column. -/
structure Hists where
  cash : List ℚ
  pos : List ℚ
  oi : List ℚ
  pcr : List ℚ

/-- Step 3 of `run` / the backfill history fetch: `fetch_last_n(..., 30)`
on each signal column. -/
def fetchHists (db : DB) : Hists :=
  { cash := fetch_last_n db.fii_cash_raw (fun r => r.fii_net) 30
    pos := fetch_last_n db.index_futures_raw (fun r => r.net_position) 30
    oi := fetch_last_n db.index_futures_raw (fun r => r.oi_change) 30
    pcr := fetch_last_n db.options_summary_raw (fun r => r.pcr) 30 }

/-- `min(len(cash_hist), len(pos_hist), len(oi_hist), len(pcr_hist))`. -/
def histMin (db : DB) : ℕ :=
  let h := fetchHists db
  min (min (min h.cash.length h.pos.length) h.oi.length) h.pcr.length

/-- Steps 4–5 of `run` on the raw-upserted store `db1`: compute the four
z-scores against the fetched windows, blend, smooth against the last
persisted `irs` (seeding with today's `sts` when none exists), classify,
and upsert the two derived rows (rounded to 3 decimals; the live path
stores no `tomorrow_bias`). -/
noncomputable def deriveLive (today : ℕ) (c : CashFetch) (f : FutFetch) (p : PcrFetch)
    (db1 : DB) : DB :=
  let h := fetchHists db1
  let cash_z := calculate_z_score c.fii_net h.cash
  let position_z := calculate_z_score f.net_position h.pos
  let oi_z := calculate_z_score f.total_oi h.oi
  let pcr_z := calculate_z_score p.pcr h.pcr
  let futures_z := calculate_futures_z position_z oi_z
  let sts := calculate_sts futures_z cash_z pcr_z
  let previous_irs :=
    match fetch_last_n db1.institutional_regime (fun r => r.irs) 1 with
    | prev :: _ => prev
    | [] => sts
  let irs := calculate_ema sts previous_irs 10
  let phase := classify_phase irs
  { db1 with
    institutional_zscores := upsertT db1.institutional_zscores today
      ⟨pyRoundR cash_z 3, pyRoundR futures_z 3, pyRoundR pcr_z 3, pyRoundR sts 3⟩
    institutional_regime := upsertT db1.institutional_regime today
      ⟨pyRoundR sts 3, pyRoundR irs 3, phase, none⟩ }

/-- `run()` from `main.py`, with the three fetch outcomes passed in as
`Option`s (`none` = the fetch raised).  A failed mandatory cash fetch
aborts before anything is written; a failed futures fetch substitutes
`net_position = 0, total_oi = 0`; a failed PCR fetch substitutes
`total_call_oi = 0, total_put_oi = 0, pcr = 1`.  The duplicate guard
returns before the raw upserts; the history guard (threshold 20)
returns after them. -/
noncomputable def run (today : ℕ) (cashRes : Option CashFetch) (futRes : Option FutFetch)
    (pcrRes : Option PcrFetch) (db : DB) : RunResult :=
  match cashRes with
  | none => ⟨db, RunStatus.fatal, false⟩
  | some c =>
    if dupCheck db c.fii_net then ⟨db, RunStatus.dupSkip, false⟩
    else
      let f := match futRes with
        | some f => f
        | none => ⟨0, 0⟩
      let p := match pcrRes with
        | some p => p
        | none => ⟨0, 0, 1⟩
      let db1 := db1Live today c f p db
      if histMin db1 < 20 then ⟨db1, RunStatus.insufficientHistory, false⟩
      else ⟨deriveLive today c f p db1, RunStatus.completed, true⟩

/-! ## backfill.py -/

/-- One CSV row of `historical_data.csv`. -/
structure CsvRow where
  trade_date : ℕ
  fii_net : ℚ
  net_position : ℚ
  oi_change : ℚ
  pcr : ℚ
  deriving DecidableEq

/-- The raw upserts of one backfill iteration: `fii_buy`/`fii_sell` and
the option OI totals are stored as 0, and `oi` is stored as `oi_change`
(backfill.py lines 28–57). -/
def db1Backfill (row : CsvRow) (db : DB) : DB :=
  { db with
    fii_cash_raw := upsertT db.fii_cash_raw row.trade_date ⟨0, 0, row.fii_net⟩
    index_futures_raw := upsertT db.index_futures_raw row.trade_date
      ⟨row.net_position, row.oi_change, row.oi_change⟩
    options_summary_raw := upsertT db.options_summary_raw row.trade_date
      ⟨0, 0, row.pcr⟩ }

/-- The signal/persist part of one backfill iteration on the raw-upserted
store `db1`: z-scores, blend, `irs := sts` when the fold state is `none`
else the EMA against the fold state, classify both labels, and upsert the
two derived rows (`tomorrow_bias` is persisted here).  Returns the store
and the new fold state `some irs`. -/
noncomputable def backfillDerive (row : CsvRow) (previous_irs : Option ℝ)
    (db1 : DB) : DB × Option ℝ :=
  let h := fetchHists db1
  let cash_z := calculate_z_score row.fii_net h.cash
  let position_z := calculate_z_score row.net_position h.pos
  let oi_z := calculate_z_score row.oi_change h.oi
  let pcr_z := calculate_z_score row.pcr h.pcr
  let futures_z := calculate_futures_z position_z oi_z
  let sts := calculate_sts futures_z cash_z pcr_z
  let irs :=
    match previous_irs with
    | none => sts
    | some prev => calculate_ema sts prev 10
  let bias := classify_bias sts
  let phase := classify_phase irs
  ({ db1 with
      institutional_zscores := upsertT db1.institutional_zscores row.trade_date
        ⟨pyRoundR cash_z 3, pyRoundR futures_z 3, pyRoundR pcr_z 3, pyRoundR sts 3⟩
      institutional_regime := upsertT db1.institutional_regime row.trade_date
        ⟨pyRoundR sts 3, pyRoundR irs 3, phase, some bias⟩ },
   some irs)

/-- One iteration of the `backfill_from_csv` loop: upsert the raw rows,
fetch the four 30-value windows, and either skip (window shorter than 30:
derived tables and fold state untouched) or derive and persist. -/
noncomputable def backfillStep (db : DB) (previous_irs : Option ℝ) (row : CsvRow) :
    DB × Option ℝ :=
  let db1 := db1Backfill row db
  if histMin db1 < 30 then (db1, previous_irs)
  else backfillDerive row previous_irs db1

/-- Insert one CSV row into a list sorted by ascending trade date
(the `df.sort_values("trade_date")` before the loop). -/
def insertAsc (r : CsvRow) : List CsvRow → List CsvRow
  | [] => [r]
  | x :: xs => if r.trade_date < x.trade_date then r :: x :: xs else x :: insertAsc r xs

/-- Sort CSV rows by ascending trade date. -/
def sortByDate (rows : List CsvRow) : List CsvRow := rows.foldr insertAsc []

/-- `backfill_from_csv` from `backfill.py`: sort the rows by trade date
and fold `backfillStep` over them, starting from `previous_irs = None`. -/
noncomputable def backfill_from_csv (rows : List CsvRow) (db : DB) : DB × Option ℝ :=
  (sortByDate rows).foldl (fun st row => backfillStep st.1 st.2 row) (db, none)

/-! ## Test fixtures -/

/-- Fixture: a table of `n` identical rows dated `n, n-1, …, 1`
(newest first). -/
def constTable {α : Type} (n : ℕ) (v : α) : List (ℕ × α) :=
  (List.range n).reverse.map (fun i => (i + 1, v))

/-- Fixture: a store whose raw tables each hold `n` identical rows dated
`n … 1` and whose derived tables are empty. -/
def rawOnlyDB (n : ℕ) (net np oc pc : ℚ) : DB :=
  { fii_cash_raw := constTable n ⟨0, 0, net⟩
    dii_cash_raw := []
    index_futures_raw := constTable n ⟨np, oc, oc⟩
    options_summary_raw := constTable n ⟨0, 0, pc⟩
    institutional_zscores := []
    institutional_regime := [] }

/-! ## Helper lemmas -/

/-- Upserting a row dated later than everything in the table puts it at
the head and keeps every existing row. -/
theorem upsertT_of_forall_lt {α : Type} (rows : List (ℕ × α)) (d : ℕ) (v : α)
    (hall : ∀ q ∈ rows, q.1 < d) : upsertT rows d v = (d, v) :: rows := by
  unfold upsertT
  have hfilter : rows.filter (fun p => decide (p.1 ≠ d)) = rows := by
    apply List.filter_eq_self.mpr
    intro a ha
    simp only [decide_eq_true_eq]
    exact Nat.ne_of_lt (hall a ha)
  rw [hfilter]
  cases rows with
  | nil => rfl
  | cons hd tl =>
      obtain ⟨d0, v0⟩ := hd
      have hle : d0 ≤ d := Nat.le_of_lt (hall (d0, v0) (List.mem_cons_self _ _))
      simp [insertDesc, hle]

/-- The newest column value of a table is the head of any positive-width
`fetch_last_n` window. -/
theorem fetch_last_n_cons_head {α β : Type} (rows : List (ℕ × α)) (col : α → β)
    (d : ℕ) (v : α) : (fetch_last_n ((d, v) :: rows) col 30).head? = some (col v) := rfl

/-- The population variance is a mean of squares, hence nonnegative. -/
theorem pvariance_nonneg (l : List ℚ) : 0 ≤ pvariance l := by
  unfold pvariance
  apply div_nonneg
  · apply List.sum_nonneg
    intro x hx
    obtain ⟨y, _, rfl⟩ := List.mem_map.mp hx
    positivity
  · exact_mod_cast Nat.zero_le _

/-- The standard deviation vanishes exactly when the variance does. -/
theorem np_std_eq_zero_iff (l : List ℚ) : np_std l = 0 ↔ pvariance l = 0 := by
  unfold np_std
  rw [Real.sqrt_eq_zero']
  constructor
  · intro hle
    have h0 : (0 : ℝ) ≤ (pvariance l : ℝ) := by exact_mod_cast pvariance_nonneg l
    exact_mod_cast le_antisymm hle h0
  · intro h
    rw [h]
    norm_num

/-- The EMA of a value against itself is that value, for any period. -/
theorem ema_self (x period : ℝ) : calculate_ema x x period = x := by
  unfold calculate_ema
  ring

/-- The clamp `max (min z 3) (-3)` stays in `[-3, 3]`. -/
theorem clamp_bounds (z : ℝ) : -3 ≤ max (min z 3) (-3) ∧ max (min z 3) (-3) ≤ 3 :=
  ⟨le_max_right _ _, max_le (min_le_right _ _) (by norm_num)⟩

/-- `calculate_z_score` always lands in `[-3, 3]`: it is either 0 or a
clamped quotient. -/
theorem calculate_z_score_bounds (v : ℚ) (hist : List ℚ) :
    -3 ≤ calculate_z_score v hist ∧ calculate_z_score v hist ≤ 3 := by
  unfold calculate_z_score
  dsimp only
  split
  · norm_num
  · exact clamp_bounds _

/-! ## The claims -/

/-- Claim C1: for every value and every non-empty history,
`calculate_z_score` returns 0 when the population standard deviation of
the history is exactly 0 (equivalently, when the population variance is),
and otherwise returns `(value - mean) / std` clamped to `[-3, 3]`. -/
theorem c1_zscore_spec (v : ℚ) (h : List ℚ) (_hne : h ≠ []) :
    (pvariance h = 0 → calculate_z_score v h = 0) ∧
    (pvariance h ≠ 0 →
      calculate_z_score v h =
        max (min ((((v : ℚ) : ℝ) - ((mean h : ℚ) : ℝ)) / np_std h) 3) (-3)) := by
  constructor
  · intro hvar
    unfold calculate_z_score
    rw [if_pos ((np_std_eq_zero_iff h).mpr hvar)]
  · intro hvar
    unfold calculate_z_score
    rw [if_neg (fun hstd => hvar ((np_std_eq_zero_iff h).mp hstd))]

/-- Witness for C1 at `value = 3`, `history = [0, 2]` (variance 1). -/
theorem c1_zscore_spec_witness :
    (pvariance [0, 2] = 0 → calculate_z_score 3 [0, 2] = 0) ∧
    (pvariance [0, 2] ≠ 0 →
      calculate_z_score 3 [0, 2] =
        max (min (((((3 : ℚ) : ℝ)) - ((mean [0, 2] : ℚ) : ℝ)) / np_std [0, 2]) 3) (-3)) :=
  c1_zscore_spec 3 [0, 2] (by decide)

/-- Claim C2: the blender computes
`futures_z = 0.6 * position_z + 0.4 * oi_z` and
`sts = clamp(0.5 * futures_z + 0.3 * cash_z + 0.2 * pcr_z, -3, 3)`, so the
returned `sts` lies in `[-3, 3]` whatever the unclamped components are. -/
theorem c2_blender_spec (position_z oi_z futures_z cash_z pcr_z : ℝ) :
    calculate_futures_z position_z oi_z = 0.6 * position_z + 0.4 * oi_z ∧
    calculate_sts futures_z cash_z pcr_z =
      max (min (0.5 * futures_z + 0.3 * cash_z + 0.2 * pcr_z) 3) (-3) ∧
    -3 ≤ calculate_sts futures_z cash_z pcr_z ∧
    calculate_sts futures_z cash_z pcr_z ≤ 3 := by
  refine ⟨by unfold calculate_futures_z; ring, ?_, ?_, ?_⟩
  · unfold calculate_sts
    have hinner : futures_z * 0.50 + cash_z * 0.30 + pcr_z * 0.20 =
        0.5 * futures_z + 0.3 * cash_z + 0.2 * pcr_z := by ring
    rw [hinner]
  · exact (clamp_bounds _).1
  · exact (clamp_bounds _).2

/-- Claim C3: `calculate_ema` returns
`current * alpha + previous_ema * (1 - alpha)` with `alpha = 2 / (period + 1)`;
in particular `calculate_ema 3 0 10 = 3 * (2 / 11)`. -/
theorem c3_ema_spec :
    (∀ current previous period : ℝ,
      calculate_ema current previous period =
        current * (2 / (period + 1)) + previous * (1 - 2 / (period + 1))) ∧
    calculate_ema 3 0 10 = 3 * (2 / 11) := by
  constructor
  · intro current previous period
    rfl
  · unfold calculate_ema
    norm_num

/-- Claim C4: the classifiers test thresholds most-extreme-first with
strict inequalities, so 2.5 is "Strong Bullish", exactly 2 is only
"Bullish", 2.01 is "Strong Bullish", exactly 0.5 is only "Transition",
and 0.51 is "Bullish Bias". -/
theorem c4_classifier_boundaries :
    classify_bias 2.5 = "Strong Bullish" ∧
    classify_bias 2 = "Bullish" ∧
    classify_bias 2.01 = "Strong Bullish" ∧
    classify_phase 0.5 = "Transition" ∧
    classify_phase 0.51 = "Bullish Bias" := by
  unfold classify_bias classify_phase
  norm_num

/-- Claim C10: on inputs from `[-3, 3]` (the range `calculate_z_score`
guarantees), `calculate_futures_z` stays in `[-3, 3]` with no clamp of
its own, being a convex combination with weights 0.6 and 0.4. -/
theorem c10_futures_z_convex (position_z oi_z : ℝ)
    (h1 : -3 ≤ position_z) (h2 : position_z ≤ 3)
    (h3 : -3 ≤ oi_z) (h4 : oi_z ≤ 3) :
    (-3 ≤ calculate_futures_z position_z oi_z ∧ calculate_futures_z position_z oi_z ≤ 3) ∧
    (∀ (v : ℚ) (hist : List ℚ),
      -3 ≤ calculate_z_score v hist ∧ calculate_z_score v hist ≤ 3) := by
  refine ⟨⟨?_, ?_⟩, fun v hist => calculate_z_score_bounds v hist⟩
  · unfold calculate_futures_z
    nlinarith
  · unfold calculate_futures_z
    nlinarith

/-- Witness for C10 at `position_z = 1`, `oi_z = -2`. -/
theorem c10_futures_z_convex_witness :
    (-3 ≤ calculate_futures_z 1 (-2) ∧ calculate_futures_z 1 (-2) ≤ 3) ∧
    (∀ (v : ℚ) (hist : List ℚ),
      -3 ≤ calculate_z_score v hist ∧ calculate_z_score v hist ≤ 3) :=
  c10_futures_z_convex 1 (-2) (by norm_num) (by norm_num) (by norm_num) (by norm_num)

/-- When the duplicate guard trips, `run` returns the store unchanged. -/
theorem run_dup (today : ℕ) (c : CashFetch) (futRes : Option FutFetch)
    (pcrRes : Option PcrFetch) (db : DB) (hdup : dupCheck db c.fii_net = true) :
    run today (some c) futRes pcrRes db = ⟨db, RunStatus.dupSkip, false⟩ := by
  simp [run, hdup]

/-- When the duplicate guard passes and some window is shorter than 20,
`run` stops after the raw upserts. -/
theorem run_insufficient (today : ℕ) (c : CashFetch) (f : FutFetch) (p : PcrFetch)
    (db : DB) (hdup : dupCheck db c.fii_net = false)
    (hlen : histMin (db1Live today c f p db) < 20) :
    run today (some c) (some f) (some p) db =
      ⟨db1Live today c f p db, RunStatus.insufficientHistory, false⟩ := by
  simp only [run, hdup, Bool.false_eq_true, if_false]
  rw [if_pos hlen]

/-- When both guards pass, `run` derives and persists. -/
theorem run_completed (today : ℕ) (c : CashFetch) (f : FutFetch) (p : PcrFetch)
    (db : DB) (hdup : dupCheck db c.fii_net = false)
    (hlen : ¬ histMin (db1Live today c f p db) < 20) :
    run today (some c) (some f) (some p) db =
      ⟨deriveLive today c f p (db1Live today c f p db), RunStatus.completed, true⟩ := by
  simp only [run, hdup, Bool.false_eq_true, if_false]
  rw [if_neg hlen]

/-- The duplicate guard on a non-empty cash table compares rounded
values of the newest row and today's fetch. -/
theorem dupCheck_head (db : DB) (d : ℕ) (r : CashRow) (rest : List (ℕ × CashRow))
    (hdb : db.fii_cash_raw = (d, r) :: rest) (net : ℚ) :
    dupCheck db net = decide (pyRound r.fii_net 2 = pyRound net 2) := by
  unfold dupCheck fetch_last_n
  rw [hdb]
  rfl

/-- Counterexample to claim C6 as stated: with 24 prior cash rows all
equal to 5 and today's fetched `fii_net = 99`, the cash window computed
by the live pipeline (raw rows are upserted before the history fetch) is
`99 :: …` — it contains today's own value, so the window does not
exclude it. -/
theorem c6_history_excludes_today_cex :
    (fetchHists (db1Live 25 ⟨1, 2, 99, 0, 0, 0⟩ ⟨7, 8⟩ ⟨0, 0, 1⟩
        (rawOnlyDB 24 5 5 5 1))).cash = 99 :: List.replicate 24 5 := by decide

/-- Claim C6 amended: the trailing window passed as history to
`calculate_z_score` is fetched after the current day's raw values are
upserted and `fetch_last_n` applies no date exclusion, so for a fresh
trade date (newer than every stored row) each window not only includes
the current day's own value but begins with it — in the live path and in
the backfill path alike. -/
theorem c6_history_includes_today (today : ℕ) (c : CashFetch) (f : FutFetch)
    (p : PcrFetch) (row : CsvRow) (db db' : DB)
    (hc : ∀ q ∈ db.fii_cash_raw, q.1 < today)
    (hf : ∀ q ∈ db.index_futures_raw, q.1 < today)
    (ho : ∀ q ∈ db.options_summary_raw, q.1 < today)
    (hc' : ∀ q ∈ db'.fii_cash_raw, q.1 < row.trade_date)
    (hf' : ∀ q ∈ db'.index_futures_raw, q.1 < row.trade_date)
    (ho' : ∀ q ∈ db'.options_summary_raw, q.1 < row.trade_date) :
    ((fetchHists (db1Live today c f p db)).cash.head? = some c.fii_net ∧
     (fetchHists (db1Live today c f p db)).pos.head? = some f.net_position ∧
     (fetchHists (db1Live today c f p db)).oi.head? = some f.total_oi ∧
     (fetchHists (db1Live today c f p db)).pcr.head? = some p.pcr) ∧
    ((fetchHists (db1Backfill row db')).cash.head? = some row.fii_net ∧
     (fetchHists (db1Backfill row db')).pos.head? = some row.net_position ∧
     (fetchHists (db1Backfill row db')).oi.head? = some row.oi_change ∧
     (fetchHists (db1Backfill row db')).pcr.head? = some row.pcr) := by
  refine ⟨⟨?_, ?_, ?_, ?_⟩, ⟨?_, ?_, ?_, ?_⟩⟩ <;>
    simp only [fetchHists, db1Live, db1Backfill] <;>
    rw [upsertT_of_forall_lt _ _ _ (by assumption)] <;>
    exact fetch_last_n_cons_head ..

/-- Witness for the amended C6 on a 24-row store and trade date 25. -/
theorem c6_history_includes_today_witness :
    ((fetchHists (db1Live 25 ⟨1, 2, 99, 0, 0, 0⟩ ⟨7, 8⟩ ⟨0, 0, 1⟩
        (rawOnlyDB 24 5 5 5 1))).cash.head? = some 99 ∧
     (fetchHists (db1Live 25 ⟨1, 2, 99, 0, 0, 0⟩ ⟨7, 8⟩ ⟨0, 0, 1⟩
        (rawOnlyDB 24 5 5 5 1))).pos.head? = some 7 ∧
     (fetchHists (db1Live 25 ⟨1, 2, 99, 0, 0, 0⟩ ⟨7, 8⟩ ⟨0, 0, 1⟩
        (rawOnlyDB 24 5 5 5 1))).oi.head? = some 8 ∧
     (fetchHists (db1Live 25 ⟨1, 2, 99, 0, 0, 0⟩ ⟨7, 8⟩ ⟨0, 0, 1⟩
        (rawOnlyDB 24 5 5 5 1))).pcr.head? = some 1) ∧
    ((fetchHists (db1Backfill ⟨25, 99, 7, 8, 1⟩ (rawOnlyDB 24 5 5 5 1))).cash.head? =
        some 99 ∧
     (fetchHists (db1Backfill ⟨25, 99, 7, 8, 1⟩ (rawOnlyDB 24 5 5 5 1))).pos.head? =
        some 7 ∧
     (fetchHists (db1Backfill ⟨25, 99, 7, 8, 1⟩ (rawOnlyDB 24 5 5 5 1))).oi.head? =
        some 8 ∧
     (fetchHists (db1Backfill ⟨25, 99, 7, 8, 1⟩ (rawOnlyDB 24 5 5 5 1))).pcr.head? =
        some 1) :=
  c6_history_includes_today 25 ⟨1, 2, 99, 0, 0, 0⟩ ⟨7, 8⟩ ⟨0, 0, 1⟩ ⟨25, 99, 7, 8, 1⟩
    (rawOnlyDB 24 5 5 5 1) (rawOnlyDB 24 5 5 5 1)
    (by decide) (by decide) (by decide) (by decide) (by decide) (by decide)

/-- Claim C8: a failed mandatory cash fetch aborts the run with the store
untouched and a fatal outcome; a failed futures fetch behaves exactly as
a successful one returning `net_position = 0, total_oi = 0`; a failed PCR
fetch behaves exactly as a successful one returning
`total_call_oi = 0, total_put_oi = 0, pcr = 1`. -/
theorem c8_fetch_failure_policy (today : ℕ) (c : CashFetch) (futRes : Option FutFetch)
    (pcrRes : Option PcrFetch) (db : DB) :
    run today none futRes pcrRes db = ⟨db, RunStatus.fatal, false⟩ ∧
    run today (some c) none pcrRes db = run today (some c) (some ⟨0, 0⟩) pcrRes db ∧
    run today (some c) futRes none db = run today (some c) futRes (some ⟨0, 0, 1⟩) db :=
  ⟨rfl, rfl, rfl⟩

/-- Counterexample to claim C9 as stated: with a stored `fii_net = 7`
and today's fetched `fii_net = 7`, the duplicate condition holds and the
run returns with the store exactly as it was — in particular the derived
tables stay empty, so no raw or derived record for the date is written
by that run. -/
theorem c9_persisted_before_skip_cex :
    dupCheck ⟨[(25, ⟨1, 2, 7⟩)], [], [], [], [], []⟩ (7 : ℚ) = true ∧
    run 25 (some ⟨1, 2, 7, 0, 0, 0⟩) (some ⟨4, 6⟩) (some ⟨10, 20, 2⟩)
        ⟨[(25, ⟨1, 2, 7⟩)], [], [], [], [], []⟩ =
      ⟨⟨[(25, ⟨1, 2, 7⟩)], [], [], [], [], []⟩, RunStatus.dupSkip, false⟩ ∧
    (⟨[(25, ⟨1, 2, 7⟩)], [], [], [], [], []⟩ : DB).institutional_zscores = [] ∧
    (⟨[(25, ⟨1, 2, 7⟩)], [], [], [], [], []⟩ : DB).institutional_regime = [] := by
  have hdup : dupCheck ⟨[(25, ⟨1, 2, 7⟩)], [], [], [], [], []⟩ (7 : ℚ) = true := by
    rw [dupCheck_head _ 25 ⟨1, 2, 7⟩ [] rfl]
    exact decide_eq_true rfl
  exact ⟨hdup, run_dup 25 ⟨1, 2, 7, 0, 0, 0⟩ _ _ _ hdup, rfl, rfl⟩

/-- Claim C9 amended: when today's fetched cash-flow net value equals the
most recently persisted one (rounded to 2 decimal places), the run
returns at the duplicate guard, which sits before every upsert: the
notification is skipped and nothing at all — raw or derived — is written
by that run (the matching data was persisted by an earlier run). -/
theorem c9_dup_skip_writes_nothing (today : ℕ) (c : CashFetch)
    (futRes : Option FutFetch) (pcrRes : Option PcrFetch) (db : DB)
    (hdup : dupCheck db c.fii_net = true) :
    run today (some c) futRes pcrRes db = ⟨db, RunStatus.dupSkip, false⟩ :=
  run_dup today c futRes pcrRes db hdup

/-- Witness for the amended C9 on a one-row store holding the same
`fii_net` as today's fetch. -/
theorem c9_dup_skip_writes_nothing_witness :
    run 30 (some ⟨3, 4, 7, 0, 0, 0⟩) none none ⟨[(29, ⟨1, 2, 7⟩)], [], [], [], [], []⟩ =
      ⟨⟨[(29, ⟨1, 2, 7⟩)], [], [], [], [], []⟩, RunStatus.dupSkip, false⟩ :=
  c9_dup_skip_writes_nothing 30 ⟨3, 4, 7, 0, 0, 0⟩ none none
    ⟨[(29, ⟨1, 2, 7⟩)], [], [], [], [], []⟩
    (by rw [dupCheck_head _ 29 ⟨1, 2, 7⟩ [] rfl]; exact decide_eq_true rfl)

/-- Counterexample to claim C7 as stated: with 24 prior rows per raw
table (so the minimum available history length is 25 after today's
upsert), the live pipeline does NOT skip: it completes and writes a
z-score row for the date, because the live threshold is 20, not 30. -/
theorem c7_live_skip_at_25_cex :
    histMin (db1Live 25 ⟨1, 2, 7, 0, 0, 0⟩ ⟨5, 5⟩ ⟨0, 0, 1⟩ (rawOnlyDB 24 5 5 5 1)) = 25 ∧
    (run 25 (some ⟨1, 2, 7, 0, 0, 0⟩) (some ⟨5, 5⟩) (some ⟨0, 0, 1⟩)
        (rawOnlyDB 24 5 5 5 1)).status = RunStatus.completed ∧
    (run 25 (some ⟨1, 2, 7, 0, 0, 0⟩) (some ⟨5, 5⟩) (some ⟨0, 0, 1⟩)
        (rawOnlyDB 24 5 5 5 1)).db.institutional_zscores.length = 1 := by
  have hdb : (rawOnlyDB 24 5 5 5 1).fii_cash_raw =
      (24, ⟨0, 0, 5⟩) :: constTable 23 ⟨0, 0, 5⟩ := by decide
  have hdup : dupCheck (rawOnlyDB 24 5 5 5 1) (7 : ℚ) = false := by
    rw [dupCheck_head _ 24 ⟨0, 0, 5⟩ _ hdb]
    apply decide_eq_false
    unfold pyRound roundHalfEvenQ
    norm_num
  have hrun := run_completed 25 ⟨1, 2, 7, 0, 0, 0⟩ ⟨5, 5⟩ ⟨0, 0, 1⟩
    (rawOnlyDB 24 5 5 5 1) hdup (by decide)
  refine ⟨by decide, ?_, ?_⟩
  · rw [hrun]
  · rw [hrun]
    simp [deriveLive, upsertT, insertDesc, rawOnlyDB]

/-- Claim C7 amended: a window shorter than the threshold makes the
pipeline keep the raw upserts, leave the derived tables untouched and
skip the rest — but the thresholds differ: the backfill path skips below
30 while the live path skips only below 20, so with a minimum history
length of 25 the backfill path skips (fold state unchanged) and the live
path proceeds to a completed run. -/
theorem c7_skip_thresholds :
    (∀ (db : DB) (prev : Option ℝ) (row : CsvRow),
      histMin (db1Backfill row db) < 30 →
      backfillStep db prev row = (db1Backfill row db, prev) ∧
      (db1Backfill row db).institutional_zscores = db.institutional_zscores ∧
      (db1Backfill row db).institutional_regime = db.institutional_regime) ∧
    (∀ (today : ℕ) (c : CashFetch) (f : FutFetch) (p : PcrFetch) (db : DB),
      dupCheck db c.fii_net = false →
      histMin (db1Live today c f p db) < 20 →
      run today (some c) (some f) (some p) db =
        ⟨db1Live today c f p db, RunStatus.insufficientHistory, false⟩ ∧
      (db1Live today c f p db).institutional_zscores = db.institutional_zscores ∧
      (db1Live today c f p db).institutional_regime = db.institutional_regime) ∧
    (∀ (today : ℕ) (c : CashFetch) (f : FutFetch) (p : PcrFetch) (db : DB),
      dupCheck db c.fii_net = false →
      ¬ histMin (db1Live today c f p db) < 20 →
      (run today (some c) (some f) (some p) db).status = RunStatus.completed) := by
  refine ⟨?_, ?_, ?_⟩
  · intro db prev row hlt
    refine ⟨?_, rfl, rfl⟩
    simp only [backfillStep]
    rw [if_pos hlt]
  · intro today c f p db hdup hlt
    exact ⟨run_insufficient today c f p db hdup hlt, rfl, rfl⟩
  · intro today c f p db hdup hlt
    rw [run_completed today c f p db hdup hlt]

/-- Witness for the amended C7: backfill and live both skip on an empty
store (window length 1), and live completes on a 24-row store (window
length 25). -/
theorem c7_skip_thresholds_witness :
    (backfillStep (rawOnlyDB 0 5 5 5 1) none ⟨1, 5, 5, 5, 1⟩ =
        (db1Backfill ⟨1, 5, 5, 5, 1⟩ (rawOnlyDB 0 5 5 5 1), none) ∧
      (db1Backfill ⟨1, 5, 5, 5, 1⟩ (rawOnlyDB 0 5 5 5 1)).institutional_zscores =
        (rawOnlyDB 0 5 5 5 1).institutional_zscores ∧
      (db1Backfill ⟨1, 5, 5, 5, 1⟩ (rawOnlyDB 0 5 5 5 1)).institutional_regime =
        (rawOnlyDB 0 5 5 5 1).institutional_regime) ∧
    (run 1 (some ⟨1, 2, 7, 0, 0, 0⟩) (some ⟨5, 5⟩) (some ⟨0, 0, 1⟩) (rawOnlyDB 0 5 5 5 1) =
        ⟨db1Live 1 ⟨1, 2, 7, 0, 0, 0⟩ ⟨5, 5⟩ ⟨0, 0, 1⟩ (rawOnlyDB 0 5 5 5 1),
          RunStatus.insufficientHistory, false⟩ ∧
      (db1Live 1 ⟨1, 2, 7, 0, 0, 0⟩ ⟨5, 5⟩ ⟨0, 0, 1⟩
          (rawOnlyDB 0 5 5 5 1)).institutional_zscores =
        (rawOnlyDB 0 5 5 5 1).institutional_zscores ∧
      (db1Live 1 ⟨1, 2, 7, 0, 0, 0⟩ ⟨5, 5⟩ ⟨0, 0, 1⟩
          (rawOnlyDB 0 5 5 5 1)).institutional_regime =
        (rawOnlyDB 0 5 5 5 1).institutional_regime) ∧
    (run 25 (some ⟨1, 2, 9, 0, 0, 0⟩) (some ⟨5, 5⟩) (some ⟨0, 0, 1⟩)
        (rawOnlyDB 24 5 5 5 1)).status = RunStatus.completed :=
  ⟨c7_skip_thresholds.1 (rawOnlyDB 0 5 5 5 1) none ⟨1, 5, 5, 5, 1⟩ (by decide),
   c7_skip_thresholds.2.1 1 ⟨1, 2, 7, 0, 0, 0⟩ ⟨5, 5⟩ ⟨0, 0, 1⟩ (rawOnlyDB 0 5 5 5 1)
     (by decide) (by decide),
   c7_skip_thresholds.2.2 25 ⟨1, 2, 9, 0, 0, 0⟩ ⟨5, 5⟩ ⟨0, 0, 1⟩ (rawOnlyDB 24 5 5 5 1)
     (by
       rw [dupCheck_head _ 24 ⟨0, 0, 5⟩ (constTable 23 ⟨0, 0, 5⟩) (by decide)]
       apply decide_eq_false
       unfold pyRound roundHalfEvenQ
       norm_num)
     (by decide)⟩

/-- On a store with no regime row, the live derivation seeds
`previous_irs` with today's `sts`, so the single regime row it writes has
`irs` equal to `sts`. -/
theorem deriveLive_regime_empty (today : ℕ) (c : CashFetch) (f : FutFetch)
    (p : PcrFetch) (db1 : DB) (h1 : db1.institutional_regime = []) :
    ∃ r : RegimeRow,
      (deriveLive today c f p db1).institutional_regime = [(today, r)] ∧
      r.irs = r.sts := by
  simp only [deriveLive]
  rw [h1]
  refine ⟨_, rfl, ?_⟩
  simp only [fetch_last_n, List.take_nil, List.map_nil]
  rw [ema_self]

/-- On a store with no regime row and an empty fold state, the backfill
derivation assigns `irs := sts` directly. -/
theorem backfillDerive_regime_none (row : CsvRow) (db1 : DB)
    (h1 : db1.institutional_regime = []) :
    ∃ r : RegimeRow,
      (backfillDerive row none db1).1.institutional_regime = [(row.trade_date, r)] ∧
      r.irs = r.sts := by
  simp only [backfillDerive]
  rw [h1]
  exact ⟨_, rfl, rfl⟩

/-- Claim C5: for the very first date processed in any sequence (no
prior `irs` in storage or in the fold state) the pipeline produces
`irs = sts` exactly — the live path by seeding `previous_irs` with `sts`
and applying the EMA, relying on `calculate_ema x x period = x`, and the
backfill path by assigning `irs := sts` when `previous_irs` is `none`. -/
theorem c5_first_date_irs_eq_sts :
    (∀ x period : ℝ, calculate_ema x x period = x) ∧
    (∀ (today : ℕ) (c : CashFetch) (f : FutFetch) (p : PcrFetch) (db : DB),
      dupCheck db c.fii_net = false →
      db.institutional_regime = [] →
      ¬ histMin (db1Live today c f p db) < 20 →
      ∃ r : RegimeRow,
        (run today (some c) (some f) (some p) db).db.institutional_regime = [(today, r)] ∧
        r.irs = r.sts) ∧
    (∀ (db : DB) (row : CsvRow),
      db.institutional_regime = [] →
      ¬ histMin (db1Backfill row db) < 30 →
      ∃ r : RegimeRow,
        (backfillStep db none row).1.institutional_regime = [(row.trade_date, r)] ∧
        r.irs = r.sts) := by
  refine ⟨ema_self, ?_, ?_⟩
  · intro today c f p db hdup hreg hlen
    rw [run_completed today c f p db hdup hlen]
    exact deriveLive_regime_empty today c f p (db1Live today c f p db) hreg
  · intro db row hreg hlen
    simp only [backfillStep]
    rw [if_neg hlen]
    exact backfillDerive_regime_none row (db1Backfill row db) hreg

/-- Witness for C5: a 30-row raw history, trade date 31, empty regime
table — both paths write a regime row with `irs = sts`. -/
theorem c5_first_date_irs_eq_sts_witness :
    calculate_ema 2 2 5 = 2 ∧
    (∃ r : RegimeRow,
      (run 31 (some ⟨1, 2, 7, 0, 0, 0⟩) (some ⟨5, 5⟩) (some ⟨0, 0, 1⟩)
          (rawOnlyDB 30 5 5 5 1)).db.institutional_regime = [(31, r)] ∧
      r.irs = r.sts) ∧
    (∃ r : RegimeRow,
      (backfillStep (rawOnlyDB 30 5 5 5 1) none ⟨31, 5, 5, 5, 1⟩).1.institutional_regime =
        [(31, r)] ∧
      r.irs = r.sts) :=
  ⟨c5_first_date_irs_eq_sts.1 2 5,
   c5_first_date_irs_eq_sts.2.1 31 ⟨1, 2, 7, 0, 0, 0⟩ ⟨5, 5⟩ ⟨0, 0, 1⟩ (rawOnlyDB 30 5 5 5 1)
     (by
       rw [dupCheck_head _ 30 ⟨0, 0, 5⟩ (constTable 29 ⟨0, 0, 5⟩) (by decide)]
       apply decide_eq_false
       unfold pyRound roundHalfEvenQ
       norm_num)
     rfl (by decide),
   c5_first_date_irs_eq_sts.2.2 (rawOnlyDB 30 5 5 5 1) ⟨31, 5, 5, 5, 1⟩ rfl (by decide)⟩

end InstEngine
